import Mathlib

/-!
The file `C/Block.c` of divworld-II.

A shallow embedding of the three functions of `C/Block.c`
(`CreateBlock`, `EmptyBlock`, `DestroyeBlock`) and the properties
stated about them.

Modelling conventions.

* `char` is a signed 8-bit integer with wrap-around: a value stored into a
  `char` is passed through `wrap8`.  Arithmetic and comparisons are done on
  `Int` (the C integer promotions), the store wraps.
* A loop that may not terminate is run with fuel: one unit per evaluation of
  a loop condition.  `none` means the fuel ran out.
* The three functions are declared `void` (lines 7, 22, 42).  A `return e;`
  statement yields `Ctl.ret line v s`, where `line` is the line of the
  statement in `Block.c` and `v` the value of its operand `e`: it records
  which statement ends the call, not a value that reaches the caller.
  Falling off the end of a function yields `Ctl.normal s`.  What a caller is
  handed is `handed`: nothing.
* The array declarations of lines 9, 24 and 44 are never read and only copy
  locals; they are left out.  Their names `Block1`, `Block2`, `Block3`
  expand to `row`, `cols`, `depth`, so line 9 redeclares the parameter `row`
  and line 44 the parameter `depth`; the operands of `return row;` and
  `return depth;` are read as the parameters.
* Locals that the source reads before any assignment, and the `char`
  conversions of the addresses of string literals, are parameters of the
  embedding.
-/

namespace Block

/-! ## Integers of the machine -/

/-- Store into a signed 8-bit `char`: reduction modulo `2^8` into
`[-128, 127]`. -/
def wrap8 (x : Int) : Int := (x + 128) % 2 ^ 8 - 128

/-- C truth value of an integer. -/
def truthy (x : Int) : Bool := x != 0

/-! ## Control flow -/

/-- How a statement ends. -/
inductive Ctl (σ : Type) where
  /-- the statement ran to its end -/
  | normal (s : σ)
  /-- a `break;` was executed -/
  | brk (s : σ)
  /-- a `continue;` was executed -/
  | cont (s : σ)
  /-- the statement `return e;` of line `line` was executed, `v` the value of `e` -/
  | ret (line : Nat) (v : Int) (s : σ)
  deriving DecidableEq, Repr

/-- The loop `for (...; cond; step) body`, started after its init clause.
`cond` yields the truth value of the condition and the state after its side
effects.  Each evaluation of the condition costs one unit of fuel; the body
runs on what is left. -/
def forLoop {σ : Type} (cond : σ → Bool × σ) (step : σ → σ)
    (body : Nat → σ → Option (Ctl σ)) : Nat → σ → Option (Ctl σ)
  | 0, _ => none
  | fuel + 1, s =>
    match cond s with
    | (false, s1) => some (.normal s1)
    | (true, s1) =>
      match body fuel s1 with
      | none => none
      | some (.normal s2) => forLoop cond step body fuel (step s2)
      | some (.cont s2) => forLoop cond step body fuel (step s2)
      | some (.brk s2) => some (.normal s2)
      | some (.ret l v s2) => some (.ret l v s2)

/-- Sequencing of two statements: the second runs when the first ran to its
end. -/
def andThen {σ : Type} (r : Option (Ctl σ)) (k : σ → Option (Ctl σ)) :
    Option (Ctl σ) :=
  match r with
  | some (.normal s) => k s
  | other => other

/-! ## `CreateBlock` (lines 7-21) -/

/-- The locals `a .. h` of `CreateBlock` (line 8). -/
structure CLocals where
  a : Int
  b : Int
  c : Int
  d : Int
  e : Int
  f : Int
  g : Int
  h : Int
  deriving DecidableEq, Repr

/-- The bound `k/7` of the loops of lines 10-12 and 14-16 (`k = 1 .. 6`); the
division is that of C, which truncates. -/
def loopBound (k : Int) : Int := Int.tdiv k 7

/-- Lines 10-12: the loop headers `for(a = 0;a <= 1/7; a++)`,
`for(b = 0;b <= 2/7; ++b)`, `for(c = 0;c <= 3/7; c++)`, nested, over the
statement `body`. -/
def createLoops1 (body : Nat → CLocals → Option (Ctl CLocals)) (fuel : Nat)
    (s : CLocals) : Option (Ctl CLocals) :=
  forLoop (fun s => (decide (s.a ≤ loopBound 1), s))
    (fun s => { s with a := wrap8 (s.a + 1) })
    (fun fuel s =>
      forLoop (fun s => (decide (s.b ≤ loopBound 2), s))
        (fun s => { s with b := wrap8 (s.b + 1) })
        (fun fuel s =>
          forLoop (fun s => (decide (s.c ≤ loopBound 3), s))
            (fun s => { s with c := wrap8 (s.c + 1) })
            body
            fuel { s with c := 0 })
        fuel { s with b := 0 })
    fuel { s with a := 0 }

/-- Lines 10-13: the loops of lines 10-12 over `return row;`. -/
def createNest1 (row : Int) (fuel : Nat) (s : CLocals) : Option (Ctl CLocals) :=
  createLoops1 (fun _ s => some (.ret 13 row s)) fuel s

/-- Lines 14-16: the loop headers `for(d = 0;d <= 4/7; d++)`,
`for(e = 0;e <= 5/7; ++e)`, `for(f = 0;f <= 6/7; f++)`, nested, over the
statement `body`. -/
def createLoops2 (body : Nat → CLocals → Option (Ctl CLocals)) (fuel : Nat)
    (s : CLocals) : Option (Ctl CLocals) :=
  forLoop (fun s => (decide (s.d ≤ loopBound 4), s))
    (fun s => { s with d := wrap8 (s.d + 1) })
    (fun fuel s =>
      forLoop (fun s => (decide (s.e ≤ loopBound 5), s))
        (fun s => { s with e := wrap8 (s.e + 1) })
        (fun fuel s =>
          forLoop (fun s => (decide (s.f ≤ loopBound 6), s))
            (fun s => { s with f := wrap8 (s.f + 1) })
            body
            fuel { s with f := 0 })
        fuel { s with e := 0 })
    fuel { s with d := 0 }

/-- Lines 14-17: the loops of lines 14-16 over `return cols;`. -/
def createNest2 (cols : Int) (fuel : Nat) (s : CLocals) : Option (Ctl CLocals) :=
  createLoops2 (fun _ s => some (.ret 17 cols s)) fuel s

/-- Lines 18-20. -/
def createNest3 (depth : Int) (fuel : Nat) (s : CLocals) : Option (Ctl CLocals) :=
  forLoop (fun s => (decide (s.g < s.d + s.e + s.f), s))
    (fun s => { s with g := wrap8 (s.g + 1) })
    (fun fuel s =>
      forLoop (fun s => (decide (s.h > s.a + s.b + s.c), s))
        (fun s => { s with h := wrap8 (s.h + 1) })
        (fun _ s => some (.ret 20 depth s))
        fuel { s with h := wrap8 (s.d * s.e * s.f) })
    fuel { s with g := wrap8 (s.a * s.b * s.c) }

/-- `CreateBlock(row, cols, depth)`, entered with the locals holding `s`. -/
def CreateBlock (fuel : Nat) (s : CLocals) (row cols depth : Int) :
    Option (Ctl CLocals) :=
  andThen (createNest1 row fuel s) fun s =>
  andThen (createNest2 cols fuel s) fun s =>
  createNest3 depth fuel s

/-! ## `EmptyBlock` (lines 22-40) -/

/-- The locals `i .. q` of `EmptyBlock` (lines 23, 25-27). -/
structure ELocals where
  i : Int
  j : Int
  k : Int
  l : Int
  m : Int
  n : Int
  o : Int
  p : Int
  q : Int
  deriving DecidableEq, Repr

/-- Line 30: `for(k = 0;k <= 00;k++) break;`. -/
def emptyK (fuel : Nat) (s : ELocals) : Option (Ctl ELocals) :=
  forLoop (fun s => (decide (s.k ≤ 0), s))
    (fun s => { s with k := wrap8 (s.k + 1) })
    (fun _ s => some (.brk s))
    fuel { s with k := 0 }

/-- The step `++j || --j` of line 29. -/
def stepJ (s : ELocals) : ELocals :=
  let s1 := { s with j := wrap8 (s.j + 1) }
  if truthy s1.j then s1 else { s1 with j := wrap8 (s1.j - 1) }

/-- Lines 29-31: `for(j = 0;i && k;++j || --j)` over the loop of line 30. -/
def emptyJ (fuel : Nat) (s : ELocals) : Option (Ctl ELocals) :=
  forLoop (fun s => (truthy s.i && truthy s.k, s)) stepJ emptyK
    fuel { s with j := 0 }

/-- Lines 28-31: `for(i = 0;i <= CreateBlock;++i)` over the loop of line 29;
`n` is the first parameter of `EmptyBlock`. -/
def emptyNest1 (n : Int) (fuel : Nat) (s : ELocals) : Option (Ctl ELocals) :=
  forLoop (fun s => (decide (s.i ≤ n), s))
    (fun s => { s with i := wrap8 (s.i + 1) })
    emptyJ
    fuel { s with i := 0 }

/-- The step `n++ || --n` of line 34. -/
def stepN (s : ELocals) : ELocals :=
  let s1 := { s with n := wrap8 (s.n + 1) }
  if truthy s.n then s1 else { s1 with n := wrap8 (s1.n - 1) }

/-- Lines 34-35: `for(n = 0;m && o;n++ || --n) continue;`. -/
def emptyN (fuel : Nat) (s : ELocals) : Option (Ctl ELocals) :=
  forLoop (fun s => (truthy s.m && truthy s.o, s)) stepN
    (fun _ s => some (.cont s))
    fuel { s with n := 0 }

/-- Lines 33-35: `for(m = 0;m >= 000;m)` over the loop of line 34; the step
`m` changes nothing. -/
def emptyM (fuel : Nat) (s : ELocals) : Option (Ctl ELocals) :=
  forLoop (fun s => (decide (s.m ≥ 0), s)) (fun s => s) emptyN
    fuel { s with m := 0 }

/-- The step `++l || l--` of line 32. -/
def stepL (s : ELocals) : ELocals :=
  let s1 := { s with l := wrap8 (s.l + 1) }
  if truthy s1.l then s1 else { s1 with l := wrap8 (s1.l - 1) }

/-- Lines 32-35: `for(l = 0;k && m;++l || l--)` over the loop of line 33. -/
def emptyNest2 (fuel : Nat) (s : ELocals) : Option (Ctl ELocals) :=
  forLoop (fun s => (truthy s.k && truthy s.m, s)) stepL emptyM
    fuel { s with l := 0 }

/-- Lines 38-39: `for(q = 0;q >= DestroyeBlock;q--) break;`; `d` is the second
parameter of `EmptyBlock`. -/
def emptyQ (d : Int) (fuel : Nat) (s : ELocals) : Option (Ctl ELocals) :=
  forLoop (fun s => (decide (s.q ≥ d), s))
    (fun s => { s with q := wrap8 (s.q - 1) })
    (fun _ s => some (.brk s))
    fuel { s with q := 0 }

/-- The step `p++ || p--` of line 37. -/
def stepP (s : ELocals) : ELocals :=
  let s1 := { s with p := wrap8 (s.p + 1) }
  if truthy s.p then s1 else { s1 with p := wrap8 (s1.p - 1) }

/-- Lines 37-39: `for(p = 0;o && q;p++ || p--)` over the loop of line 38. -/
def emptyP (d : Int) (fuel : Nat) (s : ELocals) : Option (Ctl ELocals) :=
  forLoop (fun s => (truthy s.o && truthy s.q, s)) stepP (emptyQ d)
    fuel { s with p := 0 }

/-- Lines 36-39: `for(o = 0;o <= 00;o++)` over the loop of line 37. -/
def emptyNest3 (d : Int) (fuel : Nat) (s : ELocals) : Option (Ctl ELocals) :=
  forLoop (fun s => (decide (s.o ≤ 0), s))
    (fun s => { s with o := wrap8 (s.o + 1) })
    (emptyP d)
    fuel { s with o := 0 }

/-- `EmptyBlock(n, d)`: `n` is the parameter named `CreateBlock`, `d` the
parameter named `DestroyeBlock`; `s` holds the values of the locals on entry
to line 28. -/
def EmptyBlock (fuel : Nat) (s : ELocals) (n d : Int) : Option (Ctl ELocals) :=
  andThen (emptyNest1 n fuel s) fun s =>
  andThen (emptyNest2 fuel s) fun s =>
  emptyNest3 d fuel s

/-! ## `DestroyeBlock` (lines 42-57) -/

/-- The locals `r .. z` of `DestroyeBlock` (line 43). -/
structure DLocals where
  r : Int
  s : Int
  t : Int
  u : Int
  v : Int
  w : Int
  x : Int
  y : Int
  z : Int
  deriving DecidableEq, Repr

/-- The addresses of the nine string literals `"1-1" .. "9-9"` of lines
45-55, as integers.  The program fixes them; the embedding takes them as a
parameter. -/
structure Lits where
  a1 : Int
  a2 : Int
  a3 : Int
  a4 : Int
  a5 : Int
  a6 : Int
  a7 : Int
  a8 : Int
  a9 : Int
  deriving DecidableEq, Repr

/-- Lines 47-48: `for(t = "3-3";t >>=3; t--) return row;`. -/
def destroyT (L : Lits) (row : Int) (fuel : Nat) (s : DLocals) :
    Option (Ctl DLocals) :=
  forLoop (fun s => let s1 := { s with t := wrap8 (s.t >>> 3) }; (truthy s1.t, s1))
    (fun s => { s with t := wrap8 (s.t - 1) })
    (fun _ s => some (.ret 48 row s))
    fuel { s with t := wrap8 L.a3 }

/-- Lines 46-48: `for(s = "2-2";s >>=2; --s)` over the loop of line 47. -/
def destroyS (L : Lits) (row : Int) (fuel : Nat) (s : DLocals) :
    Option (Ctl DLocals) :=
  forLoop (fun s => let s1 := { s with s := wrap8 (s.s >>> 2) }; (truthy s1.s, s1))
    (fun s => { s with s := wrap8 (s.s - 1) })
    (destroyT L row)
    fuel { s with s := wrap8 L.a2 }

/-- Lines 45-48: `for(r = "1-1";r >>=1; r--)` over the loop of line 46. -/
def destroyNest1 (L : Lits) (row : Int) (fuel : Nat) (s : DLocals) :
    Option (Ctl DLocals) :=
  forLoop (fun s => let s1 := { s with r := wrap8 (s.r >>> 1) }; (truthy s1.r, s1))
    (fun s => { s with r := wrap8 (s.r - 1) })
    (destroyS L row)
    fuel { s with r := wrap8 L.a1 }

/-- Lines 51-52: `for(w = "6-6";w == 6; w--) return cols;`. -/
def destroyW (L : Lits) (cols : Int) (fuel : Nat) (s : DLocals) :
    Option (Ctl DLocals) :=
  forLoop (fun s => (decide (s.w = 6), s))
    (fun s => { s with w := wrap8 (s.w - 1) })
    (fun _ s => some (.ret 52 cols s))
    fuel { s with w := wrap8 L.a6 }

/-- Lines 50-52: `for(v = "5-5";v == 5; --v)` over the loop of line 51. -/
def destroyV (L : Lits) (cols : Int) (fuel : Nat) (s : DLocals) :
    Option (Ctl DLocals) :=
  forLoop (fun s => (decide (s.v = 5), s))
    (fun s => { s with v := wrap8 (s.v - 1) })
    (destroyW L cols)
    fuel { s with v := wrap8 L.a5 }

/-- Lines 49-52: `for(u = "4-4";u == 4; u--)` over the loop of line 50. -/
def destroyNest2 (L : Lits) (cols : Int) (fuel : Nat) (s : DLocals) :
    Option (Ctl DLocals) :=
  forLoop (fun s => (decide (s.u = 4), s))
    (fun s => { s with u := wrap8 (s.u - 1) })
    (destroyV L cols)
    fuel { s with u := wrap8 L.a4 }

/-- Lines 55-56: `for(z = "9-9";z <<=9; --z) return depth;`. -/
def destroyZ (L : Lits) (depth : Int) (fuel : Nat) (s : DLocals) :
    Option (Ctl DLocals) :=
  forLoop (fun s => let s1 := { s with z := wrap8 (s.z * 2 ^ 9) }; (truthy s1.z, s1))
    (fun s => { s with z := wrap8 (s.z - 1) })
    (fun _ s => some (.ret 56 depth s))
    fuel { s with z := wrap8 L.a9 }

/-- Lines 54-56: `for(y = "8-8";y <<=8; y--)` over the loop of line 55. -/
def destroyY (L : Lits) (depth : Int) (fuel : Nat) (s : DLocals) :
    Option (Ctl DLocals) :=
  forLoop (fun s => let s1 := { s with y := wrap8 (s.y * 2 ^ 8) }; (truthy s1.y, s1))
    (fun s => { s with y := wrap8 (s.y - 1) })
    (destroyZ L depth)
    fuel { s with y := wrap8 L.a8 }

/-- Lines 53-56: `for(x = "7-7";x <<=7; --x)` over the loop of line 54. -/
def destroyNest3 (L : Lits) (depth : Int) (fuel : Nat) (s : DLocals) :
    Option (Ctl DLocals) :=
  forLoop (fun s => let s1 := { s with x := wrap8 (s.x * 2 ^ 7) }; (truthy s1.x, s1))
    (fun s => { s with x := wrap8 (s.x - 1) })
    (destroyY L depth)
    fuel { s with x := wrap8 L.a7 }

/-- `DestroyeBlock(row, cols, depth)`, entered with the locals holding `s`. -/
def DestroyeBlock (fuel : Nat) (L : Lits) (s : DLocals) (row cols depth : Int) :
    Option (Ctl DLocals) :=
  andThen (destroyNest1 L row fuel s) fun s =>
  andThen (destroyNest2 L cols fuel s) fun s =>
  destroyNest3 L depth fuel s

/-- How a call ends, without the final locals: `none` when the call does not
end within the fuel, `some none` when it runs to the end of the function,
`some (some (line, v))` when the `return` statement of line `line` ends it,
`v` being the value of the operand of that statement.  The operand is not a
value the caller receives: see `handed`. -/
def observe {σ : Type} : Option (Ctl σ) → Option (Option (Nat × Int))
  | none => none
  | some (.ret l v _) => some (some (l, v))
  | some _ => some none

/-- Where a call ends: `none` when the call does not end within the fuel,
`some none` when it runs to the end of the function, `some (some line)` when
the `return` statement of line `line` ends it. -/
def endLine {σ : Type} : Option (Ctl σ) → Option (Option Nat)
  | none => none
  | some (.ret l _ _) => some (some l)
  | some _ => some none

/-- What a call hands to its caller.  `CreateBlock`, `EmptyBlock` and
`DestroyeBlock` are declared `void` (lines 7, 22, 42): the operand of a
`return e;` is dropped and no call hands back a value.  `none`: the call does
not end within the fuel; `some none`: the call ends and hands back nothing. -/
def handed {σ : Type} : Option (Ctl σ) → Option (Option Int)
  | none => none
  | some _ => some none

/-- Two ways for a statement to end are alike up to `R`: both run out of
fuel, or both end the same way (with the same line and value for a `return`)
in states related by `R`. -/
def CtlRel {σ : Type} (R : σ → σ → Prop) : Option (Ctl σ) → Option (Ctl σ) → Prop
  | none, none => True
  | some (.normal s), some (.normal t) => R s t
  | some (.brk s), some (.brk t) => R s t
  | some (.cont s), some (.cont t) => R s t
  | some (.ret l v s), some (.ret k w t) => l = k ∧ v = w ∧ R s t
  | _, _ => False

/-! ## Lemmas on the control flow -/

theorem forLoop_exit {σ : Type} (cond : σ → Bool × σ) (step : σ → σ)
    (body : Nat → σ → Option (Ctl σ)) (fuel : Nat) (s s1 : σ)
    (h : cond s = (false, s1)) :
    forLoop cond step body (fuel + 1) s = some (.normal s1) := by
  simp [forLoop, h]

theorem forLoop_iter {σ : Type} (cond : σ → Bool × σ) (step : σ → σ)
    (body : Nat → σ → Option (Ctl σ)) (fuel : Nat) (s s1 s2 : σ)
    (h : cond s = (true, s1)) (hb : body fuel s1 = some (.normal s2)) :
    forLoop cond step body (fuel + 1) s = forLoop cond step body fuel (step s2) := by
  simp [forLoop, h, hb]

theorem forLoop_starve {σ : Type} (cond : σ → Bool × σ) (step : σ → σ)
    (body : Nat → σ → Option (Ctl σ)) (fuel : Nat) (s s1 : σ)
    (h : cond s = (true, s1)) (hb : body fuel s1 = none) :
    forLoop cond step body (fuel + 1) s = none := by
  simp [forLoop, h, hb]

/-- A `for` statement never ends in `break`. -/
theorem forLoop_ne_brk {σ : Type} (cond : σ → Bool × σ) (step : σ → σ)
    (body : Nat → σ → Option (Ctl σ)) (fuel : Nat) (s t : σ) :
    forLoop cond step body fuel s ≠ some (.brk t) := by
  induction fuel generalizing s with
  | zero => simp [forLoop]
  | succ f ih =>
    unfold forLoop
    rcases hc : cond s with ⟨b, s1⟩
    cases b
    · simp
    · simp only
      rcases hb : body f s1 with _ | r
      · simp
      · cases r <;> simp [ih]

/-- A `for` statement never ends in `continue`. -/
theorem forLoop_ne_cont {σ : Type} (cond : σ → Bool × σ) (step : σ → σ)
    (body : Nat → σ → Option (Ctl σ)) (fuel : Nat) (s t : σ) :
    forLoop cond step body fuel s ≠ some (.cont t) := by
  induction fuel generalizing s with
  | zero => simp [forLoop]
  | succ f ih =>
    unfold forLoop
    rcases hc : cond s with ⟨b, s1⟩
    cases b
    · simp
    · simp only
      rcases hb : body f s1 with _ | r
      · simp
      · cases r <;> simp [ih]

/-- A `for` statement ends in a `return` only when its body does. -/
theorem forLoop_ret {σ : Type} (cond : σ → Bool × σ) (step : σ → σ)
    (body : Nat → σ → Option (Ctl σ)) (P : Nat → Int → Prop)
    (hbody : ∀ f s l v t, body f s = some (.ret l v t) → P l v)
    (fuel : Nat) (s t : σ) (l : Nat) (v : Int)
    (h : forLoop cond step body fuel s = some (.ret l v t)) : P l v := by
  induction fuel generalizing s with
  | zero => simp [forLoop] at h
  | succ f ih =>
    unfold forLoop at h
    rcases hc : cond s with ⟨b, s1⟩
    rw [hc] at h
    cases b
    · simp at h
    · simp only at h
      rcases hb : body f s1 with _ | r
      · rw [hb] at h; simp at h
      · rw [hb] at h
        cases r with
        | normal s2 => exact ih _ h
        | cont s2 => exact ih _ h
        | brk s2 => simp at h
        | ret l2 v2 s2 =>
          simp only [Option.some.injEq, Ctl.ret.injEq] at h
          obtain ⟨h1, h2, _⟩ := h
          subst h1; subst h2
          exact hbody _ _ _ _ _ hb

theorem createNest1_eq (row : Int) (fuel : Nat) (s : CLocals) :
    createNest1 row (fuel + 3) s
      = some (.ret 13 row { s with a := 0, b := 0, c := 0 }) := by
  simp [createNest1, createLoops1, loopBound, forLoop, Int.tdiv]

theorem createNest1_short (row : Int) (fuel : Nat) (s : CLocals) (h : fuel < 3) :
    createNest1 row fuel s = none := by
  interval_cases fuel <;> simp [createNest1, createLoops1, loopBound, forLoop, Int.tdiv]

theorem createNest2_eq (cols : Int) (fuel : Nat) (s : CLocals) :
    createNest2 cols (fuel + 3) s
      = some (.ret 17 cols { s with d := 0, e := 0, f := 0 }) := by
  simp [createNest2, createLoops2, loopBound, forLoop, Int.tdiv]

theorem loopBound_eq (k : Int) (h1 : 1 ≤ k) (h6 : k ≤ 6) : loopBound k = 0 := by
  unfold loopBound
  interval_cases k <;> rfl

/-- The loops of lines 10-12 run their body once, with `a = b = c = 0`, and
end with `a = b = c = 1`, when the body runs to its end and leaves the three
counters alone. -/
theorem createLoops1_once (B : Nat → CLocals → Option (Ctl CLocals)) (s t : CLocals)
    (f : Nat) (hB : B (f + 1) { s with a := 0, b := 0, c := 0 } = some (.normal t))
    (ha : t.a = 0) (hb : t.b = 0) (hc : t.c = 0) :
    createLoops1 B (f + 4) s = some (.normal { t with a := 1, b := 1, c := 1 }) := by
  simp [createLoops1, loopBound, forLoop, Int.tdiv, hB, ha, hb, hc, wrap8]

/-- The loops of lines 14-16 run their body once, with `d = e = f = 0`, and
end with `d = e = f = 1`, when the body runs to its end and leaves the three
counters alone. -/
theorem createLoops2_once (B : Nat → CLocals → Option (Ctl CLocals)) (s t : CLocals)
    (g : Nat) (hB : B (g + 1) { s with d := 0, e := 0, f := 0 } = some (.normal t))
    (hd : t.d = 0) (he : t.e = 0) (hf : t.f = 0) :
    createLoops2 B (g + 4) s = some (.normal { t with d := 1, e := 1, f := 1 }) := by
  simp [createLoops2, loopBound, forLoop, Int.tdiv, hB, hd, he, hf, wrap8]

/-! ## Lemmas on `wrap8` -/

theorem wrap8_le (x : Int) : wrap8 x ≤ 127 := by
  unfold wrap8; omega

theorem wrap8_id (x : Int) (h1 : -128 ≤ x) (h2 : x ≤ 127) : wrap8 x = x := by
  unfold wrap8; omega

theorem wrap8_shl8 (y : Int) : wrap8 (y * 2 ^ 8) = 0 := by
  unfold wrap8; omega

/-! ## Lemmas on `EmptyBlock` -/

theorem emptyK_eq (fuel : Nat) (s : ELocals) :
    emptyK (fuel + 1) s = some (.normal { s with k := 0 }) := by
  simp [emptyK, forLoop]

theorem emptyJ_skip (fuel : Nat) (s : ELocals) (h : s.i = 0 ∨ s.k = 0) :
    emptyJ (fuel + 1) s = some (.normal { s with j := 0 }) := by
  rcases h with h | h <;> simp [emptyJ, forLoop, truthy, h]

theorem emptyJ_enter (fuel : Nat) (s : ELocals) (hi : s.i ≠ 0) (hk : s.k ≠ 0) :
    emptyJ (fuel + 2) s = some (.normal { s with j := 1, k := 0 }) := by
  unfold emptyJ
  rw [forLoop_iter _ _ _ (fuel + 1) _ { s with j := 0 } _ (by simp [truthy, hi, hk])
    (emptyK_eq fuel _)]
  rw [forLoop_exit _ _ _ fuel _ (stepJ { s with j := 0, k := 0 }) (by simp [truthy, stepJ, wrap8])]
  simp [stepJ, truthy, wrap8]

/-- The loop of line 29 ends normally or runs out of fuel. -/
theorem emptyJ_cases (fuel : Nat) (s : ELocals) :
    emptyJ fuel s = none ∨ ∃ t, emptyJ fuel s = some (.normal t) := by
  rcases h : emptyJ fuel s with _ | r
  · exact Or.inl rfl
  · cases r with
    | normal t => exact Or.inr ⟨t, rfl⟩
    | brk t => exact absurd h (forLoop_ne_brk _ _ _ _ _ _)
    | cont t => exact absurd h (forLoop_ne_cont _ _ _ _ _ _)
    | ret l v t =>
      exfalso
      refine forLoop_ret _ _ _ (fun _ _ => False) ?_ _ _ _ _ _ h
      intro f s1 l1 v1 t1 hk
      refine forLoop_ret _ _ _ (fun _ _ => False) ?_ _ _ _ _ _ hk
      intro f2 s2 l2 v2 t2 hb
      simp at hb

/-- The loop of line 28 never exits when its bound is 127 or more: a `char`
never exceeds 127. -/
theorem emptyI_diverges (n : Int) (hn : 127 ≤ n) (fuel : Nat) (s : ELocals)
    (hs : s.i ≤ 127) :
    forLoop (fun s => (decide (s.i ≤ n), s))
      (fun s => { s with i := wrap8 (s.i + 1) }) emptyJ fuel s = none := by
  induction fuel generalizing s with
  | zero => rfl
  | succ f ih =>
    have hc : (fun s : ELocals => (decide (s.i ≤ n), s)) s = (true, s) := by
      simp; omega
    rcases emptyJ_cases f s with h | ⟨t, h⟩
    · exact forLoop_starve (fun s : ELocals => (decide (s.i ≤ n), s)) _ _ f s s hc h
    · refine (forLoop_iter (fun s : ELocals => (decide (s.i ≤ n), s)) _ _ f s s t hc h).trans ?_
      exact ih _ (wrap8_le _)

/-- The loop of line 28 from `i = s.i` with `t` values of `i` left below the
bound `n ≤ 126`: it ends, leaves `m` alone and clears `k` as soon as one
iteration runs with `i ≠ 0`. -/
theorem emptyI_terminates (n : Int) (hn : n ≤ 126) (t : Nat) :
    ∀ (s : ELocals) (F : Nat), 0 ≤ s.i → s.i + t = n + 1 → t + 3 ≤ F →
      ∃ r, forLoop (fun s => (decide (s.i ≤ n), s))
          (fun s => { s with i := wrap8 (s.i + 1) }) emptyJ F s = some (.normal r)
        ∧ r.m = s.m ∧ r.k = (if (s.i ≠ 0 ∧ 1 ≤ t) ∨ 2 ≤ t then 0 else s.k) := by
  induction t with
  | zero =>
    intro s F h0 ht hF
    obtain ⟨F1, rfl⟩ : ∃ F1, F = F1 + 1 := ⟨F - 1, by omega⟩
    refine ⟨s, forLoop_exit _ _ _ F1 s s ?_, rfl, ?_⟩
    · simp; omega
    · simp
  | succ t ih =>
    intro s F h0 ht hF
    obtain ⟨F2, rfl⟩ : ∃ F2, F = F2 + 2 + 1 := ⟨F - 3, by omega⟩
    have hc : (fun s : ELocals => (decide (s.i ≤ n), s)) s = (true, s) := by
      simp; omega
    have hw : wrap8 (s.i + 1) = s.i + 1 := wrap8_id _ (by omega) (by omega)
    by_cases hik : s.i ≠ 0 ∧ s.k ≠ 0
    · obtain ⟨r, hr, hm, hk⟩ := ih { s with j := 1, k := 0, i := wrap8 (s.i + 1) } (F2 + 2)
        (by simp [hw]; omega) (by simp [hw]; omega) (by omega)
      refine ⟨r, ?_, by simpa using hm, ?_⟩
      · exact (forLoop_iter (fun s : ELocals => (decide (s.i ≤ n), s)) _ _ (F2 + 2) s s _ hc
          (emptyJ_enter F2 s hik.1 hik.2)).trans hr
      · rw [hk]
        have h1 : s.i ≠ 0 := hik.1
        simp [h1]
    · have hsk : s.i = 0 ∨ s.k = 0 := by
        by_cases h : s.i = 0
        · exact Or.inl h
        · exact Or.inr (by_contra fun hk => hik ⟨h, hk⟩)
      obtain ⟨r, hr, hm, hk⟩ := ih { s with j := 0, i := wrap8 (s.i + 1) } (F2 + 2)
        (by simp [hw]; omega) (by simp [hw]; omega) (by omega)
      refine ⟨r, ?_, by simpa using hm, ?_⟩
      · exact (forLoop_iter (fun s : ELocals => (decide (s.i ≤ n), s)) _ _ (F2 + 2) s s _ hc
          (emptyJ_skip (F2 + 1) s hsk)).trans hr
      · rw [hk]
        simp only [hw]
        rcases Nat.eq_zero_or_pos t with ht0 | ht0
        · subst ht0
          rcases hsk with h | h
          · simp [h]
          · simp [h]
        · have h1 : s.i + 1 ≠ 0 := by omega
          have h2 : 1 ≤ t := ht0
          simp [h1, h2]

theorem emptyNest1_neg (n : Int) (hn : n < 0) (fuel : Nat) (s : ELocals) :
    emptyNest1 n (fuel + 1) s = some (.normal { s with i := 0 }) := by
  unfold emptyNest1
  exact forLoop_exit _ _ _ fuel _ _ (by simp; omega)

theorem emptyNest1_diverges (n : Int) (hn : 127 ≤ n) (fuel : Nat) (s : ELocals) :
    emptyNest1 n fuel s = none :=
  emptyI_diverges n hn fuel _ (by simp)

theorem emptyNest1_terminates (n : Int) (h0 : 0 ≤ n) (hn : n ≤ 126) (F : Nat)
    (hF : n.toNat + 4 ≤ F) (s : ELocals) :
    ∃ r, emptyNest1 n F s = some (.normal r) ∧ r.m = s.m
      ∧ r.k = (if 1 ≤ n then 0 else s.k) := by
  obtain ⟨r, hr, hm, hk⟩ := emptyI_terminates n hn (n.toNat + 1) { s with i := 0 } F
    (by simp) (by simp; omega) (by omega)
  refine ⟨r, hr, by simpa using hm, ?_⟩
  rw [hk]
  by_cases h1 : 1 ≤ n
  · have : 2 ≤ n.toNat + 1 := by omega
    simp [h1, this]
  · have : n.toNat = 0 := by omega
    simp [h1, this]

/-- The first nest ends normally or runs out of fuel. -/
theorem emptyNest1_cases (n : Int) (fuel : Nat) (s : ELocals) :
    emptyNest1 n fuel s = none ∨ ∃ t, emptyNest1 n fuel s = some (.normal t) := by
  rcases h : emptyNest1 n fuel s with _ | r
  · exact Or.inl rfl
  · cases r with
    | normal t => exact Or.inr ⟨t, rfl⟩
    | brk t => exact absurd h (forLoop_ne_brk _ _ _ _ _ _)
    | cont t => exact absurd h (forLoop_ne_cont _ _ _ _ _ _)
    | ret l v t =>
      exfalso
      refine forLoop_ret _ _ _ (fun _ _ => False) ?_ _ _ _ _ _ h
      intro f s1 l1 v1 t1 hj
      rcases emptyJ_cases f s1 with h1 | ⟨t2, h1⟩ <;> simp [h1] at hj

/-- With a bound `n ≤ 0` the first nest changes neither `k` nor `m`. -/
theorem emptyNest1_keeps (n : Int) (hn : n ≤ 0) (fuel : Nat) (s r : ELocals)
    (h : emptyNest1 n fuel s = some (.normal r)) : r.k = s.k ∧ r.m = s.m := by
  rcases lt_or_eq_of_le hn with hlt | rfl
  · cases fuel with
    | zero => simp [emptyNest1, forLoop] at h
    | succ f =>
      rw [emptyNest1_neg n hlt] at h
      simp only [Option.some.injEq, Ctl.normal.injEq] at h
      subst h
      simp
  · match fuel, h with
    | 0, h => simp [emptyNest1, forLoop] at h
    | 1, h => simp [emptyNest1, forLoop, emptyJ] at h
    | f + 2, h =>
      unfold emptyNest1 at h
      rw [forLoop_iter (fun s : ELocals => (decide (s.i ≤ 0), s)) _ _ (f + 1)
        { s with i := 0 } { s with i := 0 } { s with i := 0, j := 0 } (by simp)
        (emptyJ_skip f _ (Or.inl (by simp)))] at h
      rw [forLoop_exit (fun s : ELocals => (decide (s.i ≤ 0), s)) _ _ f _
        { s with i := wrap8 (0 + 1), j := 0 } (by simp [wrap8])] at h
      simp only [Option.some.injEq, Ctl.normal.injEq] at h
      subst h
      simp

/-- The loop of line 33 makes no progress: started at `m = 0` it runs out of
any fuel. -/
theorem emptyM_loop_diverges (fuel : Nat) (s : ELocals) (hm : s.m = 0) :
    forLoop (fun s => (decide (s.m ≥ 0), s)) (fun s => s) emptyN fuel s = none := by
  induction fuel generalizing s with
  | zero => rfl
  | succ f ih =>
    have hc : (fun s : ELocals => (decide (s.m ≥ 0), s)) s = (true, s) := by
      simp [hm]
    cases f with
    | zero =>
      exact forLoop_starve (fun s : ELocals => (decide (s.m ≥ 0), s)) _ _ 0 s s hc rfl
    | succ g =>
      have hn : emptyN (g + 1) s = some (.normal { s with n := 0 }) := by
        unfold emptyN
        exact forLoop_exit _ _ _ g _ _ (by simp [truthy, hm])
      refine (forLoop_iter (fun s : ELocals => (decide (s.m ≥ 0), s)) _ _ (g + 1) s s _
        hc hn).trans ?_
      exact ih _ (by simpa using hm)

theorem emptyM_diverges (fuel : Nat) (s : ELocals) : emptyM fuel s = none :=
  emptyM_loop_diverges fuel _ (by simp)

theorem emptyNest2_skip (fuel : Nat) (s : ELocals) (h : s.k = 0 ∨ s.m = 0) :
    emptyNest2 (fuel + 1) s = some (.normal { s with l := 0 }) := by
  unfold emptyNest2
  refine forLoop_exit _ _ _ fuel _ _ ?_
  rcases h with h | h <;> simp [truthy, h]

theorem emptyNest2_diverges (fuel : Nat) (s : ELocals) (hk : s.k ≠ 0) (hm : s.m ≠ 0) :
    emptyNest2 fuel s = none := by
  cases fuel with
  | zero => rfl
  | succ f =>
    unfold emptyNest2
    exact forLoop_starve (fun s : ELocals => (truthy s.k && truthy s.m, s)) _ _ f _
      { s with l := 0 } (by simp [truthy, hk, hm]) (emptyM_diverges f _)

theorem emptyP_eq (d : Int) (fuel : Nat) (s : ELocals) (ho : s.o = 0) :
    emptyP d (fuel + 1) s = some (.normal { s with p := 0 }) := by
  unfold emptyP
  exact forLoop_exit _ _ _ fuel _ _ (by simp [truthy, ho])

theorem emptyNest3_eq (d : Int) (fuel : Nat) (s : ELocals) :
    emptyNest3 d (fuel + 2) s = some (.normal { s with o := 1, p := 0 }) := by
  unfold emptyNest3
  rw [forLoop_iter (fun s : ELocals => (decide (s.o ≤ 0), s)) _ _ (fuel + 1) _
    { s with o := 0 } _ (by simp) (emptyP_eq d fuel _ (by simp))]
  rw [forLoop_exit (fun s : ELocals => (decide (s.o ≤ 0), s)) _ _ fuel _
    { s with o := wrap8 (0 + 1), p := 0 } (by simp [wrap8])]
  simp [wrap8]

theorem emptyNest3_short (d : Int) (fuel : Nat) (hf : fuel < 2) (s : ELocals) :
    emptyNest3 d fuel s = none := by
  interval_cases fuel
  · rfl
  · unfold emptyNest3
    exact forLoop_starve (fun s : ELocals => (decide (s.o ≤ 0), s)) _ _ 0 _
      { s with o := 0 } (by simp) rfl

theorem EmptyBlock_completes (s : ELocals) (n d : Int) (hn : n ≤ 126)
    (h : 1 ≤ n ∨ s.k = 0 ∨ s.m = 0) (F : Nat) (hF : n.toNat + 4 ≤ F) :
    ∃ r, EmptyBlock F s n d = some (.normal r) := by
  obtain ⟨F2, rfl⟩ : ∃ F2, F = F2 + 2 := ⟨F - 2, by omega⟩
  have key : ∃ r, emptyNest1 n (F2 + 2) s = some (.normal r) ∧ (r.k = 0 ∨ r.m = 0) := by
    rcases lt_or_le n 0 with hneg | hpos
    · refine ⟨_, emptyNest1_neg n hneg (F2 + 1) s, ?_⟩
      rcases h with h | h | h
      · omega
      · exact Or.inl h
      · exact Or.inr h
    · obtain ⟨r, hr, hm, hk⟩ := emptyNest1_terminates n hpos hn (F2 + 2) hF s
      refine ⟨r, hr, ?_⟩
      rcases h with h | h | h
      · left; rw [hk]; simp [h]
      · left; rw [hk, h]; simp
      · right; rw [hm, h]
  obtain ⟨r, hr, hkm⟩ := key
  refine ⟨{ r with l := 0, o := 1, p := 0 }, ?_⟩
  unfold EmptyBlock
  rw [hr]
  simp only [andThen]
  rw [emptyNest2_skip (F2 + 1) r hkm]
  simp only
  exact emptyNest3_eq d F2 _

theorem EmptyBlock_diverges_big (s : ELocals) (n d : Int) (hn : 127 ≤ n) (fuel : Nat) :
    EmptyBlock fuel s n d = none := by
  unfold EmptyBlock
  rw [emptyNest1_diverges n hn]
  rfl

theorem EmptyBlock_diverges_stuck (s : ELocals) (n d : Int) (hn : n ≤ 0)
    (hk : s.k ≠ 0) (hm : s.m ≠ 0) (fuel : Nat) :
    EmptyBlock fuel s n d = none := by
  unfold EmptyBlock
  rcases emptyNest1_cases n fuel s with h | ⟨r, h⟩
  · rw [h]; rfl
  · obtain ⟨h1, h2⟩ := emptyNest1_keeps n hn fuel s r h
    rw [h]
    simp only [andThen]
    rw [emptyNest2_diverges fuel r (by rw [h1]; exact hk) (by rw [h2]; exact hm)]

/-- The third nest does not read the second parameter. -/
theorem emptyNest3_param (d1 d2 : Int) (fuel : Nat) (s : ELocals) :
    emptyNest3 d1 fuel s = emptyNest3 d2 fuel s := by
  rcases Nat.lt_or_ge fuel 2 with h | h
  · rw [emptyNest3_short d1 fuel h, emptyNest3_short d2 fuel h]
  · obtain ⟨f, rfl⟩ : ∃ f, fuel = f + 2 := ⟨fuel - 2, by omega⟩
    rw [emptyNest3_eq, emptyNest3_eq]

theorem EmptyBlock_param (fuel : Nat) (s : ELocals) (n d1 d2 : Int) :
    EmptyBlock fuel s n d1 = EmptyBlock fuel s n d2 := by
  unfold EmptyBlock
  simp only [emptyNest3_param d1 d2]

/-- The function `EmptyBlock` has no `return` statement: it never yields a
value. -/
theorem EmptyBlock_no_return (fuel : Nat) (s : ELocals) (n d : Int) (l : Nat) (v : Int)
    (t : ELocals) : EmptyBlock fuel s n d ≠ some (.ret l v t) := by
  intro h
  unfold EmptyBlock at h
  rcases emptyNest1_cases n fuel s with h1 | ⟨r1, h1⟩
  · rw [h1] at h; simp [andThen] at h
  · rw [h1] at h
    simp only [andThen] at h
    rcases h2 : emptyNest2 fuel r1 with _ | c
    · rw [h2] at h; simp at h
    · rw [h2] at h
      cases c with
      | normal r2 =>
        simp only at h
        rcases Nat.lt_or_ge fuel 2 with hf | hf
        · rw [emptyNest3_short d fuel hf] at h; simp at h
        · obtain ⟨f, rfl⟩ : ∃ f, fuel = f + 2 := ⟨fuel - 2, by omega⟩
          rw [emptyNest3_eq] at h; simp at h
      | brk r2 => simp at h
      | cont r2 => simp at h
      | ret l2 v2 r2 =>
        refine forLoop_ret _ _ _ (fun _ _ => False) ?_ _ _ _ _ _ h2
        intro f s1 l1 v1 t1 hm
        rw [emptyM_diverges] at hm
        simp at hm

/-! ## Lemmas on `DestroyeBlock` -/

theorem andThen_ret {σ : Type} (r : Option (Ctl σ)) (k : σ → Option (Ctl σ))
    (l : Nat) (v : Int) (t : σ) (h : andThen r k = some (.ret l v t)) :
    r = some (.ret l v t) ∨ ∃ s, r = some (.normal s) ∧ k s = some (.ret l v t) := by
  rcases r with _ | c
  · simp [andThen] at h
  · cases c with
    | normal s => exact Or.inr ⟨s, rfl, h⟩
    | brk s => simp [andThen] at h
    | cont s => simp [andThen] at h
    | ret l2 v2 s => exact Or.inl h

/-- Line 54: the condition `y <<= 8` is false at its first test. -/
theorem destroyY_eq (L : Lits) (depth : Int) (fuel : Nat) (s : DLocals) :
    destroyY L depth (fuel + 1) s = some (.normal { s with y := 0 }) := by
  unfold destroyY
  exact forLoop_exit _ _ _ fuel _ _ (by simp only [wrap8_shl8]; rfl)

theorem destroyNest3_no_return (L : Lits) (depth : Int) (fuel : Nat) (s t : DLocals)
    (l : Nat) (v : Int) : destroyNest3 L depth fuel s ≠ some (.ret l v t) := by
  intro h
  refine forLoop_ret _ _ _ (fun _ _ => False) ?_ _ _ _ _ _ h
  intro f s1 l1 v1 t1 hy
  cases f with
  | zero => simp [destroyY, forLoop] at hy
  | succ g => rw [destroyY_eq] at hy; simp at hy

theorem destroyNest1_return (L : Lits) (row : Int) (fuel : Nat) (s t : DLocals)
    (l : Nat) (v : Int) (h : destroyNest1 L row fuel s = some (.ret l v t)) :
    l = 48 ∧ v = row := by
  refine forLoop_ret _ _ _ (fun l v => l = 48 ∧ v = row) ?_ _ _ _ _ _ h
  intro f s1 l1 v1 t1 hs
  refine forLoop_ret _ _ _ (fun l v => l = 48 ∧ v = row) ?_ _ _ _ _ _ hs
  intro f2 s2 l2 v2 t2 ht
  refine forLoop_ret _ _ _ (fun l v => l = 48 ∧ v = row) ?_ _ _ _ _ _ ht
  intro f3 s3 l3 v3 t3 hb
  simp only [Option.some.injEq, Ctl.ret.injEq] at hb
  exact ⟨hb.1.symm, hb.2.1.symm⟩

theorem destroyNest2_return (L : Lits) (cols : Int) (fuel : Nat) (s t : DLocals)
    (l : Nat) (v : Int) (h : destroyNest2 L cols fuel s = some (.ret l v t)) :
    l = 52 ∧ v = cols := by
  refine forLoop_ret _ _ _ (fun l v => l = 52 ∧ v = cols) ?_ _ _ _ _ _ h
  intro f s1 l1 v1 t1 hs
  refine forLoop_ret _ _ _ (fun l v => l = 52 ∧ v = cols) ?_ _ _ _ _ _ hs
  intro f2 s2 l2 v2 t2 ht
  refine forLoop_ret _ _ _ (fun l v => l = 52 ∧ v = cols) ?_ _ _ _ _ _ ht
  intro f3 s3 l3 v3 t3 hb
  simp only [Option.some.injEq, Ctl.ret.injEq] at hb
  exact ⟨hb.1.symm, hb.2.1.symm⟩

/-- The only values `DestroyeBlock` returns are its own `row` (line 48) and
`cols` (line 52). -/
theorem DestroyeBlock_return (fuel : Nat) (L : Lits) (s t : DLocals)
    (row cols depth : Int) (l : Nat) (v : Int)
    (h : DestroyeBlock fuel L s row cols depth = some (.ret l v t)) :
    (l = 48 ∧ v = row) ∨ (l = 52 ∧ v = cols) := by
  unfold DestroyeBlock at h
  rcases andThen_ret _ _ _ _ _ h with h1 | ⟨s1, _, h1⟩
  · exact Or.inl (destroyNest1_return L row fuel s t l v h1)
  · rcases andThen_ret _ _ _ _ _ h1 with h2 | ⟨s2, _, h2⟩
    · exact Or.inr (destroyNest2_return L cols fuel s1 t l v h2)
    · exact absurd h2 (destroyNest3_no_return L depth fuel s2 t l v)

/-! ## The locals on entry do not matter to `DestroyeBlock` -/

theorem CtlRel_mono {σ : Type} (R Q : σ → σ → Prop) (hRQ : ∀ s t, R s t → Q s t)
    (a b : Option (Ctl σ)) (h : CtlRel R a b) : CtlRel Q a b := by
  rcases a with _ | a <;> rcases b with _ | b
  · trivial
  · cases b <;> simp [CtlRel] at h
  · cases a <;> simp [CtlRel] at h
  · cases a <;> cases b <;> simp only [CtlRel] at h ⊢
    · exact hRQ _ _ h
    · exact hRQ _ _ h
    · exact hRQ _ _ h
    · exact ⟨h.1, h.2.1, hRQ _ _ h.2.2⟩

theorem forLoop_rel {σ : Type} (R : σ → σ → Prop) (cond : σ → Bool × σ) (step : σ → σ)
    (body : Nat → σ → Option (Ctl σ))
    (hc : ∀ s t, R s t → (cond s).1 = (cond t).1 ∧ R (cond s).2 (cond t).2)
    (hs : ∀ s t, R s t → R (step s) (step t))
    (hb : ∀ f s t, R s t → CtlRel R (body f s) (body f t))
    (fuel : Nat) (s t : σ) (h : R s t) :
    CtlRel R (forLoop cond step body fuel s) (forLoop cond step body fuel t) := by
  induction fuel generalizing s t with
  | zero => simp [forLoop, CtlRel]
  | succ f ih =>
    obtain ⟨h1, h2⟩ := hc s t h
    unfold forLoop
    rcases hcs : cond s with ⟨b, s1⟩
    rcases hct : cond t with ⟨c, t1⟩
    rw [hcs, hct] at h1 h2
    simp only at h1 h2
    subst h1
    cases b
    · simpa [CtlRel] using h2
    · simp only
      have hbody := hb f s1 t1 h2
      rcases hbs : body f s1 with _ | x <;> rcases hbt : body f t1 with _ | y <;>
        rw [hbs, hbt] at hbody
      · simp [CtlRel]
      · cases y <;> simp [CtlRel] at hbody
      · cases x <;> simp [CtlRel] at hbody
      · cases x <;> cases y <;> simp only [CtlRel] at hbody ⊢
        · exact ih _ _ (hs _ _ hbody)
        · exact hbody
        · exact ih _ _ (hs _ _ hbody)
        · exact hbody

theorem andThen_rel {σ : Type} (R : σ → σ → Prop) (a b : Option (Ctl σ))
    (k : σ → Option (Ctl σ)) (h : CtlRel R a b)
    (hk : ∀ s t, R s t → CtlRel R (k s) (k t)) :
    CtlRel R (andThen a k) (andThen b k) := by
  rcases a with _ | a <;> rcases b with _ | b
  · trivial
  · cases b <;> simp [CtlRel] at h
  · cases a <;> simp [CtlRel] at h
  · cases a <;> cases b <;> simp only [CtlRel] at h <;> simp only [andThen]
    · exact hk _ _ h
    · exact h
    · exact h
    · exact h

theorem observe_eq_of_rel {σ : Type} (R : σ → σ → Prop) (a b : Option (Ctl σ))
    (h : CtlRel R a b) : observe a = observe b := by
  rcases a with _ | a <;> rcases b with _ | b
  · rfl
  · cases b <;> simp [CtlRel] at h
  · cases a <;> simp [CtlRel] at h
  · cases a <;> cases b <;> simp only [CtlRel] at h <;> simp only [observe]
    · rw [h.1, h.2.1]

theorem destroyNest1_rel (L : Lits) (row : Int) (fuel : Nat) (s t : DLocals) :
    CtlRel (fun _ _ => True) (destroyNest1 L row fuel s) (destroyNest1 L row fuel t) := by
  unfold destroyNest1
  refine CtlRel_mono (fun a b : DLocals => a.r = b.r) _ (fun _ _ _ => trivial) _ _ ?_
  refine forLoop_rel (fun a b : DLocals => a.r = b.r) _ _ _ ?_ ?_ ?_ fuel _ _ rfl
  · intro a b h; simp [h]
  · intro a b h; simp [h]
  intro f1 a1 b1 h1
  unfold destroyS
  refine CtlRel_mono (fun a b : DLocals => a.r = b.r ∧ a.s = b.s) _
    (fun _ _ h => h.1) _ _ ?_
  refine forLoop_rel (fun a b : DLocals => a.r = b.r ∧ a.s = b.s) _ _ _ ?_ ?_ ?_
    f1 _ _ ⟨h1, rfl⟩
  · intro a b h; simp [h.1, h.2]
  · intro a b h; simp [h.1, h.2]
  intro f2 a2 b2 h2
  unfold destroyT
  refine CtlRel_mono (fun a b : DLocals => a.r = b.r ∧ a.s = b.s ∧ a.t = b.t) _
    (fun _ _ h => ⟨h.1, h.2.1⟩) _ _ ?_
  refine forLoop_rel (fun a b : DLocals => a.r = b.r ∧ a.s = b.s ∧ a.t = b.t)
    _ _ _ ?_ ?_ ?_ f2 _ _ ⟨h2.1, h2.2, rfl⟩
  · intro a b h; simp [h.1, h.2.1, h.2.2]
  · intro a b h; simp [h.1, h.2.1, h.2.2]
  · intro f3 a3 b3 h3
    exact ⟨rfl, rfl, h3⟩

theorem destroyNest2_rel (L : Lits) (cols : Int) (fuel : Nat) (s t : DLocals) :
    CtlRel (fun _ _ => True) (destroyNest2 L cols fuel s) (destroyNest2 L cols fuel t) := by
  unfold destroyNest2
  refine CtlRel_mono (fun a b : DLocals => a.u = b.u) _ (fun _ _ _ => trivial) _ _ ?_
  refine forLoop_rel (fun a b : DLocals => a.u = b.u) _ _ _ ?_ ?_ ?_ fuel _ _ rfl
  · intro a b h; simp [h]
  · intro a b h; simp [h]
  intro f1 a1 b1 h1
  unfold destroyV
  refine CtlRel_mono (fun a b : DLocals => a.u = b.u ∧ a.v = b.v) _
    (fun _ _ h => h.1) _ _ ?_
  refine forLoop_rel (fun a b : DLocals => a.u = b.u ∧ a.v = b.v) _ _ _ ?_ ?_ ?_
    f1 _ _ ⟨h1, rfl⟩
  · intro a b h; simp [h.1, h.2]
  · intro a b h; simp [h.1, h.2]
  intro f2 a2 b2 h2
  unfold destroyW
  refine CtlRel_mono (fun a b : DLocals => a.u = b.u ∧ a.v = b.v ∧ a.w = b.w) _
    (fun _ _ h => ⟨h.1, h.2.1⟩) _ _ ?_
  refine forLoop_rel (fun a b : DLocals => a.u = b.u ∧ a.v = b.v ∧ a.w = b.w)
    _ _ _ ?_ ?_ ?_ f2 _ _ ⟨h2.1, h2.2, rfl⟩
  · intro a b h; simp [h.1, h.2.1, h.2.2]
  · intro a b h; simp [h.1, h.2.1, h.2.2]
  · intro f3 a3 b3 h3
    exact ⟨rfl, rfl, h3⟩

theorem destroyNest3_rel (L : Lits) (depth : Int) (fuel : Nat) (s t : DLocals) :
    CtlRel (fun _ _ => True) (destroyNest3 L depth fuel s) (destroyNest3 L depth fuel t) := by
  unfold destroyNest3
  refine CtlRel_mono (fun a b : DLocals => a.x = b.x) _ (fun _ _ _ => trivial) _ _ ?_
  refine forLoop_rel (fun a b : DLocals => a.x = b.x) _ _ _ ?_ ?_ ?_ fuel _ _ rfl
  · intro a b h; simp [h]
  · intro a b h; simp [h]
  intro f1 a1 b1 h1
  unfold destroyY
  refine CtlRel_mono (fun a b : DLocals => a.x = b.x ∧ a.y = b.y) _
    (fun _ _ h => h.1) _ _ ?_
  refine forLoop_rel (fun a b : DLocals => a.x = b.x ∧ a.y = b.y) _ _ _ ?_ ?_ ?_
    f1 _ _ ⟨h1, rfl⟩
  · intro a b h; simp [h.1, h.2]
  · intro a b h; simp [h.1, h.2]
  intro f2 a2 b2 h2
  unfold destroyZ
  refine CtlRel_mono (fun a b : DLocals => a.x = b.x ∧ a.y = b.y ∧ a.z = b.z) _
    (fun _ _ h => ⟨h.1, h.2.1⟩) _ _ ?_
  refine forLoop_rel (fun a b : DLocals => a.x = b.x ∧ a.y = b.y ∧ a.z = b.z)
    _ _ _ ?_ ?_ ?_ f2 _ _ ⟨h2.1, h2.2, rfl⟩
  · intro a b h; simp [h.1, h.2.1, h.2.2]
  · intro a b h; simp [h.1, h.2.1, h.2.2]
  · intro f3 a3 b3 h3
    exact ⟨rfl, rfl, h3⟩

/-- What a call of `DestroyeBlock` does is the same whatever its locals hold
on entry. -/
theorem DestroyeBlock_locals (fuel : Nat) (L : Lits) (s t : DLocals)
    (row cols depth : Int) :
    observe (DestroyeBlock fuel L s row cols depth)
      = observe (DestroyeBlock fuel L t row cols depth) := by
  refine observe_eq_of_rel (fun _ _ => True) _ _ ?_
  unfold DestroyeBlock
  refine andThen_rel _ _ _ _ (destroyNest1_rel L row fuel s t) ?_
  intro s1 t1 _
  refine andThen_rel _ _ _ _ (destroyNest2_rel L cols fuel s1 t1) ?_
  intro s2 t2 _
  exact destroyNest3_rel L depth fuel s2 t2

/-! ## Lemmas on `CreateBlock` -/

theorem CreateBlock_eq (s : CLocals) (row cols depth : Int) (fuel : Nat) (hf : 3 ≤ fuel) :
    CreateBlock fuel s row cols depth
      = some (.ret 13 row { s with a := 0, b := 0, c := 0 }) := by
  obtain ⟨f, rfl⟩ : ∃ f, fuel = f + 3 := ⟨fuel - 3, by omega⟩
  simp [CreateBlock, createNest1_eq, andThen]

theorem CreateBlock_short (s : CLocals) (row cols depth : Int) (fuel : Nat) (hf : fuel < 3) :
    CreateBlock fuel s row cols depth = none := by
  simp [CreateBlock, createNest1_short row fuel s hf, andThen]

theorem CreateBlock_endLine (s : CLocals) (row cols depth : Int) (fuel : Nat)
    (hf : 3 ≤ fuel) : endLine (CreateBlock fuel s row cols depth) = some (some 13) := by
  rw [CreateBlock_eq s row cols depth fuel hf]
  rfl

theorem CreateBlock_handed (s : CLocals) (row cols depth : Int) (fuel : Nat)
    (hf : 3 ≤ fuel) : handed (CreateBlock fuel s row cols depth) = some none := by
  rw [CreateBlock_eq s row cols depth fuel hf]
  rfl

/-! ## Where the calls end -/

theorem endLine_observe {σ : Type} (a : Option (Ctl σ)) :
    endLine a = (observe a).map (Option.map Prod.fst) := by
  rcases a with _ | c
  · rfl
  · cases c <;> rfl

theorem handed_observe {σ : Type} (a : Option (Ctl σ)) :
    handed a = (observe a).map (fun _ => none) := by
  rcases a with _ | c
  · rfl
  · cases c <;> rfl

/-- A call of `EmptyBlock` does not end in a `return` statement. -/
theorem EmptyBlock_endLine (fuel : Nat) (s : ELocals) (n d : Int) :
    endLine (EmptyBlock fuel s n d) = none
      ∨ endLine (EmptyBlock fuel s n d) = some none := by
  rcases h : EmptyBlock fuel s n d with _ | c
  · exact Or.inl rfl
  · cases c with
    | ret l v t => exact absurd h (EmptyBlock_no_return fuel s n d l v t)
    | normal t => exact Or.inr rfl
    | brk t => exact Or.inr rfl
    | cont t => exact Or.inr rfl

/-- A call of `DestroyeBlock` ends at line 48, at line 52, at the end of the
function, or not at all. -/
theorem DestroyeBlock_endLine (fuel : Nat) (L : Lits) (s : DLocals) (row cols depth : Int) :
    endLine (DestroyeBlock fuel L s row cols depth) = none
      ∨ endLine (DestroyeBlock fuel L s row cols depth) = some none
      ∨ endLine (DestroyeBlock fuel L s row cols depth) = some (some 48)
      ∨ endLine (DestroyeBlock fuel L s row cols depth) = some (some 52) := by
  rcases h : DestroyeBlock fuel L s row cols depth with _ | c
  · exact Or.inl rfl
  · cases c with
    | normal u => exact Or.inr (Or.inl rfl)
    | brk u => exact Or.inr (Or.inl rfl)
    | cont u => exact Or.inr (Or.inl rfl)
    | ret l v u =>
      rcases DestroyeBlock_return fuel L s u row cols depth l v h with ⟨h1, _⟩ | ⟨h1, _⟩
      · subst h1; exact Or.inr (Or.inr (Or.inl rfl))
      · subst h1; exact Or.inr (Or.inr (Or.inr rfl))

/-- Where a call of `DestroyeBlock` ends is the same whatever its locals hold
on entry. -/
theorem DestroyeBlock_endLine_locals (fuel : Nat) (L : Lits) (s t : DLocals)
    (row cols depth : Int) :
    endLine (DestroyeBlock fuel L s row cols depth)
      = endLine (DestroyeBlock fuel L t row cols depth) := by
  rw [endLine_observe, endLine_observe, DestroyeBlock_locals fuel L s t row cols depth]

/-- The call of `DestroyeBlock` that enters none of its three nests: it runs
to the end of the function and has written its own locals `r`, `u`, `x` only. -/
theorem DestroyeBlock_falls_through (fuel : Nat) (L : Lits) (s : DLocals)
    (row cols depth : Int) (h1 : wrap8 (wrap8 L.a1 >>> 1) = 0) (h4 : wrap8 L.a4 ≠ 4)
    (h7 : wrap8 (wrap8 L.a7 * 2 ^ 7) = 0) :
    DestroyeBlock (fuel + 1) L s row cols depth
      = some (.normal { s with r := 0, u := wrap8 L.a4, x := 0 }) := by
  have e1 : destroyNest1 L row (fuel + 1) s = some (.normal { s with r := 0 }) := by
    unfold destroyNest1
    exact forLoop_exit _ _ _ fuel _ _ (by simp only [h1]; rfl)
  have e2 : destroyNest2 L cols (fuel + 1) { s with r := 0 }
      = some (.normal { s with r := 0, u := wrap8 L.a4 }) := by
    unfold destroyNest2
    exact forLoop_exit _ _ _ fuel _ _ (by simp [h4])
  have e3 : destroyNest3 L depth (fuel + 1) { s with r := 0, u := wrap8 L.a4 }
      = some (.normal { s with r := 0, u := wrap8 L.a4, x := 0 }) := by
    unfold destroyNest3
    exact forLoop_exit _ _ _ fuel _ _ (by simp only [h7]; rfl)
  unfold DestroyeBlock
  rw [e1]
  simp only [andThen]
  rw [e2]
  simp only
  exact e3

/-- The call of `DestroyeBlock` that enters the three loops of its first nest:
it ends in the `return` of line 48. -/
theorem DestroyeBlock_line48 (fuel : Nat) (L : Lits) (s : DLocals)
    (row cols depth : Int) (h1 : wrap8 (wrap8 L.a1 >>> 1) ≠ 0)
    (h2 : wrap8 (wrap8 L.a2 >>> 2) ≠ 0) (h3 : wrap8 (wrap8 L.a3 >>> 3) ≠ 0) :
    endLine (DestroyeBlock (fuel + 3) L s row cols depth) = some (some 48) := by
  have e1 : destroyNest1 L row (fuel + 3) s
      = some (.ret 48 row ⟨wrap8 (wrap8 L.a1 >>> 1), wrap8 (wrap8 L.a2 >>> 2),
          wrap8 (wrap8 L.a3 >>> 3), s.u, s.v, s.w, s.x, s.y, s.z⟩) := by
    have b1 : (wrap8 (wrap8 L.a1 >>> 1) != 0) = true := by simpa using h1
    have b2 : (wrap8 (wrap8 L.a2 >>> 2) != 0) = true := by simpa using h2
    have b3 : (wrap8 (wrap8 L.a3 >>> 3) != 0) = true := by simpa using h3
    simp [destroyNest1, destroyS, destroyT, forLoop, truthy, b1, b2, b3]
  unfold DestroyeBlock
  rw [e1]
  rfl

/-! ## The properties -/

/-- C6: `CreateBlock` leaves through `return row` (line 13) on the first
iteration of the first nest, with `a = b = c = 0`, for every `row`, `cols`,
`depth` and whatever the locals hold on entry: with fuel for the three loop
conditions it returns `row`, and no amount of fuel makes it execute
`return cols` (line 17) or `return depth` (line 20). -/
theorem CreateBlock_first_return (s : CLocals) (row cols depth : Int) :
    (∀ fuel, 3 ≤ fuel → CreateBlock fuel s row cols depth
        = some (.ret 13 row { s with a := 0, b := 0, c := 0 }))
    ∧ (∀ fuel v t, CreateBlock fuel s row cols depth ≠ some (.ret 17 v t))
    ∧ (∀ fuel v t, CreateBlock fuel s row cols depth ≠ some (.ret 20 v t)) := by
  have h3 := CreateBlock_eq s row cols depth
  have hlt := CreateBlock_short s row cols depth
  refine ⟨h3, ?_, ?_⟩ <;> intro fuel v t <;> rcases Nat.lt_or_ge fuel 3 with h | h
  · simp [hlt fuel h]
  · simp [h3 fuel h]
  · simp [hlt fuel h]
  · simp [h3 fuel h]

/-- C7: every division used as a loop bound in `CreateBlock` is zero: for `k`
in `1 .. 6` the C division `k/7` is `0`, and a counter `v ≥ 0` passes the test
`v <= k/7` exactly when `v = 0`.  So the loops of lines 10-12, and those of
lines 14-16, admit the one counter value `0`: over a body that runs to its end
and leaves the counters alone they run that body once, with the counters at
`0`, and end with the counters at `1`; over `return row;` and `return cols;`
they reach the `return` with the counters at `0`. -/
theorem loop_bound_zero (k : Int) (h1 : 1 ≤ k) (h6 : k ≤ 6) :
    loopBound k = 0
    ∧ (∀ v : Int, 0 ≤ v → (v ≤ loopBound k ↔ v = 0))
    ∧ (∀ (B : Nat → CLocals → Option (Ctl CLocals)) (s t : CLocals) (f : Nat),
        B (f + 1) { s with a := 0, b := 0, c := 0 } = some (.normal t) →
        t.a = 0 → t.b = 0 → t.c = 0 →
        createLoops1 B (f + 4) s = some (.normal { t with a := 1, b := 1, c := 1 }))
    ∧ (∀ (B : Nat → CLocals → Option (Ctl CLocals)) (s t : CLocals) (g : Nat),
        B (g + 1) { s with d := 0, e := 0, f := 0 } = some (.normal t) →
        t.d = 0 → t.e = 0 → t.f = 0 →
        createLoops2 B (g + 4) s = some (.normal { t with d := 1, e := 1, f := 1 }))
    ∧ (∀ (row : Int) (fuel : Nat) (s : CLocals), createNest1 row (fuel + 3) s
        = some (.ret 13 row { s with a := 0, b := 0, c := 0 }))
    ∧ (∀ (cols : Int) (fuel : Nat) (s : CLocals), createNest2 cols (fuel + 3) s
        = some (.ret 17 cols { s with d := 0, e := 0, f := 0 })) := by
  have hk : loopBound k = 0 := loopBound_eq k h1 h6
  refine ⟨hk, ?_, createLoops1_once, createLoops2_once, createNest1_eq, createNest2_eq⟩
  intro v hv
  rw [hk]
  omega

/-- Witness of C7 at `k = 6`, the bound of line 16, with a body that counts
its runs in `h`: the body of each nest runs once. -/
theorem loop_bound_zero_witness :
    loopBound 6 = 0
    ∧ createLoops1 (fun _ s => some (.normal { s with h := s.h + 1 })) 4
        ⟨17, -3, 5, 99, 5, -128, 127, 0⟩
      = some (.normal ⟨1, 1, 1, 99, 5, -128, 127, 1⟩)
    ∧ createLoops2 (fun _ s => some (.normal { s with h := s.h + 1 })) 4
        ⟨17, -3, 5, 99, 5, -128, 127, 0⟩
      = some (.normal ⟨17, -3, 5, 1, 1, 1, 127, 1⟩) :=
  ⟨(loop_bound_zero 6 (by decide) (by decide)).1,
    (loop_bound_zero 6 (by decide) (by decide)).2.2.1 _ _ _ 0 rfl rfl rfl rfl,
    (loop_bound_zero 6 (by decide) (by decide)).2.2.2.1 _ _ _ 0 rfl rfl rfl rfl⟩

/-- C8: `EmptyBlock(n, d)`, entered with the locals holding `s`, ends within
some fuel exactly when `n ≤ 126` and (`1 ≤ n` or `k = 0` or `m = 0` on entry).
For `127 ≤ n` the loop of line 28 runs out of any fuel; for `1 ≤ n ≤ 126` the
first nest ends with `k = 0`; the loop of line 33 runs out of any fuel from
any state. -/
theorem EmptyBlock_terminates_iff (s : ELocals) (n d : Int) :
    ((∃ fuel, EmptyBlock fuel s n d ≠ none)
        ↔ (n ≤ 126 ∧ (1 ≤ n ∨ s.k = 0 ∨ s.m = 0)))
    ∧ (127 ≤ n → ∀ fuel, emptyNest1 n fuel s = none)
    ∧ (1 ≤ n → n ≤ 126 → ∃ fuel r, emptyNest1 n fuel s = some (.normal r) ∧ r.k = 0)
    ∧ (∀ fuel t, emptyM fuel t = none) := by
  refine ⟨⟨?_, ?_⟩, ?_, ?_, ?_⟩
  · rintro ⟨fuel, hf⟩
    by_contra hcon
    apply hf
    rcases le_or_lt n 126 with hn | hn
    · have hn0 : n ≤ 0 := by
        by_contra h1
        exact hcon ⟨hn, Or.inl (by omega)⟩
      have hk : s.k ≠ 0 := fun h => hcon ⟨hn, Or.inr (Or.inl h)⟩
      have hm : s.m ≠ 0 := fun h => hcon ⟨hn, Or.inr (Or.inr h)⟩
      exact EmptyBlock_diverges_stuck s n d hn0 hk hm fuel
    · exact EmptyBlock_diverges_big s n d (by omega) fuel
  · rintro ⟨hn, h⟩
    obtain ⟨r, hr⟩ := EmptyBlock_completes s n d hn h (n.toNat + 4) (le_refl _)
    exact ⟨n.toNat + 4, by rw [hr]; simp⟩
  · intro hn fuel
    exact emptyNest1_diverges n hn fuel s
  · intro h1 hn
    obtain ⟨r, hr, _, hk⟩ := emptyNest1_terminates n (by omega) hn (n.toNat + 4) (le_refl _) s
    exact ⟨n.toNat + 4, r, hr, by rw [hk]; simp [h1]⟩
  · intro fuel t
    exact emptyM_diverges fuel t

/-- C9: in `DestroyeBlock` the statement `return depth` (line 56) is never
executed.  For every `y`, `y <<= 8` stores `0` in the 8-bit `y`; so the loop
of line 54 ends at its first test whatever the other locals hold, and no call
of `DestroyeBlock` ends in the `return` of line 56. -/
theorem DestroyeBlock_depth_unreachable (fuel : Nat) (L : Lits) (s : DLocals)
    (row cols depth : Int) :
    (∀ y : Int, wrap8 (y * 2 ^ 8) = 0)
    ∧ (∀ g t, destroyY L depth (g + 1) t = some (.normal { t with y := 0 }))
    ∧ (∀ v t, DestroyeBlock fuel L s row cols depth ≠ some (.ret 56 v t)) := by
  refine ⟨wrap8_shl8, fun g t => destroyY_eq L depth g t, ?_⟩
  intro v t h
  rcases DestroyeBlock_return fuel L s t row cols depth 56 v h with h1 | h1
  · exact absurd h1.1 (by decide)
  · exact absurd h1.1 (by decide)

/-- C10: `EmptyBlock` does not depend on its second parameter: for every
fuel, first argument and entry values of the locals, two values of the second
parameter give the same outcome (the same end, the same final locals).  The
third nest runs the loop of line 37 once, with `o = 0`, where it ends at its
first test with `q` untouched: the loop of line 38 is not entered. -/
theorem EmptyBlock_ignores_second_parameter (fuel : Nat) (s : ELocals) (n d1 d2 : Int) :
    EmptyBlock fuel s n d1 = EmptyBlock fuel s n d2
    ∧ (∀ g t, t.o = 0 → emptyP d1 (g + 1) t = some (.normal { t with p := 0 }))
    ∧ (∀ g t, emptyNest3 d1 (g + 2) t = some (.normal { t with o := 1, p := 0 })) :=
  ⟨EmptyBlock_param fuel s n d1 d2, fun g t h => emptyP_eq d1 g t h,
    fun g t => emptyNest3_eq d1 g t⟩

/-! ## The allocator reading of the three functions

The source keeps no table of slots, validates nothing and reports no error.
The three functions are declared `void`: a call hands its caller nothing.
`CreateBlock` ends through line 13, `EmptyBlock` has no `return` statement,
`DestroyeBlock` ends at line 48, at line 52 or at the end of the function, or
does not end.  The properties below state what the code does where an
allocator would be expected. -/

/-- C1, as stated, fails at `(row, cols, depth) = (1, 1, 1)`: the call of
`CreateBlock` ends through line 13 and hands its caller nothing, so there is
no index `i`; and `EmptyBlock`, whatever it is called on, does not end in a
`return` statement, so it hands back no `false`; called on `127` it ends
within no fuel. -/
theorem create_then_empty_no_index :
    handed (CreateBlock 3 ⟨17, -3, 0, 99, 5, -128, 127, 1⟩ 1 1 1) = some none
    ∧ endLine (CreateBlock 3 ⟨17, -3, 0, 99, 5, -128, 127, 1⟩ 1 1 1) = some (some 13)
    ∧ (∀ fuel st i d, endLine (EmptyBlock fuel st i d) = none
        ∨ endLine (EmptyBlock fuel st i d) = some none)
    ∧ (∀ fuel st d, EmptyBlock fuel st 127 d = none) :=
  ⟨by decide, by decide, fun fuel st i d => EmptyBlock_endLine fuel st i d,
    fun fuel st d => EmptyBlock_diverges_big st 127 d (by decide) fuel⟩

/-- C1, amended: for `row`, `cols`, `depth` all positive, the call of
`CreateBlock` ends (through line 13) and hands its caller no index; and
`EmptyBlock` hands back no truth value on any argument: it never ends in a
`return` statement, runs to its end when called on `i` with `1 ≤ i ≤ 126`, and
ends within no fuel when called on `i ≥ 127`. -/
theorem create_then_empty (s : CLocals) (row cols depth : Int)
    (_hr : 0 < row) (_hc : 0 < cols) (_hd : 0 < depth) :
    (∀ fuel, 3 ≤ fuel → handed (CreateBlock fuel s row cols depth) = some none
        ∧ endLine (CreateBlock fuel s row cols depth) = some (some 13))
    ∧ (∀ fuel st i d, endLine (EmptyBlock fuel st i d) = none
        ∨ endLine (EmptyBlock fuel st i d) = some none)
    ∧ (∀ st i d, 1 ≤ i → i ≤ 126 → ∃ fuel r, EmptyBlock fuel st i d = some (.normal r))
    ∧ (∀ fuel st i d, 127 ≤ i → EmptyBlock fuel st i d = none) := by
  refine ⟨?_, ?_, ?_, ?_⟩
  · intro fuel hf
    exact ⟨CreateBlock_handed s row cols depth fuel hf,
      CreateBlock_endLine s row cols depth fuel hf⟩
  · intro fuel st i d
    exact EmptyBlock_endLine fuel st i d
  · intro st i d h1 h126
    exact ⟨i.toNat + 4, EmptyBlock_completes st i d h126 (Or.inl h1) _ (le_refl _)⟩
  · intro fuel st i d h127
    exact EmptyBlock_diverges_big st i d h127 fuel

/-- Witness of the amended C1 at `(5, 6, 7)`. -/
theorem create_then_empty_witness :
    (∀ fuel, 3 ≤ fuel → handed (CreateBlock fuel ⟨17, -3, 0, 99, 5, -128, 127, 1⟩ 5 6 7) = some none
        ∧ endLine (CreateBlock fuel ⟨17, -3, 0, 99, 5, -128, 127, 1⟩ 5 6 7) = some (some 13))
    ∧ (∀ fuel st i d, endLine (EmptyBlock fuel st i d) = none
        ∨ endLine (EmptyBlock fuel st i d) = some none)
    ∧ (∀ st i d, 1 ≤ i → i ≤ 126 → ∃ fuel r, EmptyBlock fuel st i d = some (.normal r))
    ∧ (∀ fuel st i d, 127 ≤ i → EmptyBlock fuel st i d = none) :=
  create_then_empty ⟨17, -3, 0, 99, 5, -128, 127, 1⟩ 5 6 7 (by decide) (by decide) (by decide)

/-- C2, as stated, fails at `(r, c, d) = (1, 1, 1)`: the call of `CreateBlock`
ends and hands its caller nothing, so there is no index `i`;
`DestroyeBlock(1, 1, 1)` (string literals at 4096, 4100, ..) runs to its end
having written its own locals only; and `EmptyBlock` called on `1` runs to its
end without a `return`, as it does on every argument it ends on: nothing
returns true. -/
theorem create_destroy_empty_no_value :
    handed (CreateBlock 3 ⟨17, -3, 0, 99, 5, -128, 127, 1⟩ 1 1 1) = some none
    ∧ DestroyeBlock 1 ⟨4096, 4100, 4104, 4108, 4112, 4116, 4120, 4124, 4128⟩
        ⟨1, 2, 3, 4, 5, 6, 7, 8, 9⟩ 1 1 1
      = some (.normal ⟨0, 2, 3, 12, 5, 6, 0, 8, 9⟩)
    ∧ (∀ d, EmptyBlock 5 ⟨9, 9, 9, 9, 9, 9, 9, 9, 9⟩ 1 d
        = some (.normal ⟨2, 1, 0, 0, 9, 9, 1, 0, 9⟩))
    ∧ (∀ fuel st i d, endLine (EmptyBlock fuel st i d) = none
        ∨ endLine (EmptyBlock fuel st i d) = some none) := by
  refine ⟨by decide, by decide, ?_, ?_⟩
  · intro d
    rw [EmptyBlock_param 5 _ 1 d 0]
    decide
  · intro fuel st i d
    exact EmptyBlock_endLine fuel st i d

/-- C2, amended: for `r`, `c`, `d` all positive, the call of `CreateBlock` ends
(through line 13) and hands its caller no index.  `DestroyeBlock` marks no
slot free and zeroes no extents: where its call ends does not depend on the
locals it is entered with, it ends at line 48, at line 52, at the end of the
function or not at all, it ends at line 48 when the three loops of its first
nest are entered, and when none of its nests is entered it runs to its end
having written its locals `r`, `u`, `x` only.  `EmptyBlock` never ends in a
`return` statement on any argument, so it does not return true. -/
theorem create_destroy_empty (s : CLocals) (r c d : Int)
    (_hr : 0 < r) (_hc : 0 < c) (_hd : 0 < d) :
    (∀ fuel, 3 ≤ fuel → handed (CreateBlock fuel s r c d) = some none
        ∧ endLine (CreateBlock fuel s r c d) = some (some 13))
    ∧ (∀ fuel L ds ds2 x y z, endLine (DestroyeBlock fuel L ds x y z)
        = endLine (DestroyeBlock fuel L ds2 x y z))
    ∧ (∀ fuel L ds x y z, endLine (DestroyeBlock fuel L ds x y z) = none
        ∨ endLine (DestroyeBlock fuel L ds x y z) = some none
        ∨ endLine (DestroyeBlock fuel L ds x y z) = some (some 48)
        ∨ endLine (DestroyeBlock fuel L ds x y z) = some (some 52))
    ∧ (∀ fuel (L : Lits) (ds : DLocals) x y z, wrap8 (wrap8 L.a1 >>> 1) = 0 →
        wrap8 L.a4 ≠ 4 → wrap8 (wrap8 L.a7 * 2 ^ 7) = 0 →
        DestroyeBlock (fuel + 1) L ds x y z
          = some (.normal { ds with r := 0, u := wrap8 L.a4, x := 0 }))
    ∧ (∀ fuel (L : Lits) (ds : DLocals) x y z, wrap8 (wrap8 L.a1 >>> 1) ≠ 0 →
        wrap8 (wrap8 L.a2 >>> 2) ≠ 0 → wrap8 (wrap8 L.a3 >>> 3) ≠ 0 →
        endLine (DestroyeBlock (fuel + 3) L ds x y z) = some (some 48))
    ∧ (∀ fuel st i e, endLine (EmptyBlock fuel st i e) = none
        ∨ endLine (EmptyBlock fuel st i e) = some none) := by
  refine ⟨?_, ?_, ?_, ?_, ?_, ?_⟩
  · intro fuel hf
    exact ⟨CreateBlock_handed s r c d fuel hf, CreateBlock_endLine s r c d fuel hf⟩
  · intro fuel L ds ds2 x y z
    exact DestroyeBlock_endLine_locals fuel L ds ds2 x y z
  · intro fuel L ds x y z
    exact DestroyeBlock_endLine fuel L ds x y z
  · intro fuel L ds x y z h1 h4 h7
    exact DestroyeBlock_falls_through fuel L ds x y z h1 h4 h7
  · intro fuel L ds x y z h1 h2 h3
    exact DestroyeBlock_line48 fuel L ds x y z h1 h2 h3
  · intro fuel st i e
    exact EmptyBlock_endLine fuel st i e

/-- Witness of the amended C2 at `(2, 3, 4)`: the call of `CreateBlock`, a call
of `DestroyeBlock` that enters no nest (literals at 4096, 4100, ..), one that
ends at line 48 (literals at 4100, 4104, 4112, ..), and a call of
`EmptyBlock`. -/
theorem create_destroy_empty_witness :
    handed (CreateBlock 3 ⟨17, -3, 0, 99, 5, -128, 127, 1⟩ 2 3 4) = some none
    ∧ DestroyeBlock 1 ⟨4096, 4100, 4104, 4108, 4112, 4116, 4120, 4124, 4128⟩ ⟨1, 2, 3, 4, 5, 6, 7, 8, 9⟩ 2 3 4 = some (.normal ⟨0, 2, 3, 12, 5, 6, 0, 8, 9⟩)
    ∧ endLine (DestroyeBlock 3 ⟨4100, 4104, 4112, 4116, 4120, 4124, 4128, 4132, 4136⟩ ⟨1, 2, 3, 4, 5, 6, 7, 8, 9⟩ 2 3 4) = some (some 48)
    ∧ (endLine (EmptyBlock 9 ⟨9, 9, 9, 9, 9, 9, 9, 9, 9⟩ 2 0) = none ∨ endLine (EmptyBlock 9 ⟨9, 9, 9, 9, 9, 9, 9, 9, 9⟩ 2 0) = some none) :=
  ⟨((create_destroy_empty ⟨17, -3, 0, 99, 5, -128, 127, 1⟩ 2 3 4 (by decide) (by decide) (by decide)).1 3
      (le_refl _)).1,
    (create_destroy_empty ⟨17, -3, 0, 99, 5, -128, 127, 1⟩ 2 3 4 (by decide) (by decide) (by decide)).2.2.2.1 0
      ⟨4096, 4100, 4104, 4108, 4112, 4116, 4120, 4124, 4128⟩ ⟨1, 2, 3, 4, 5, 6, 7, 8, 9⟩ 2 3 4 (by decide) (by decide) (by decide),
    (create_destroy_empty ⟨17, -3, 0, 99, 5, -128, 127, 1⟩ 2 3 4 (by decide) (by decide) (by decide)).2.2.2.2.1 0
      ⟨4100, 4104, 4112, 4116, 4120, 4124, 4128, 4132, 4136⟩ ⟨1, 2, 3, 4, 5, 6, 7, 8, 9⟩ 2 3 4 (by decide) (by decide) (by decide),
    (create_destroy_empty ⟨17, -3, 0, 99, 5, -128, 127, 1⟩ 2 3 4 (by decide) (by decide) (by decide)).2.2.2.2.2 9
      ⟨9, 9, 9, 9, 9, 9, 9, 9, 9⟩ 2 0⟩

/-- C3, as stated, fails at `(0, 1, 1)`: the call `CreateBlock(0, 1, 1)` does
not fail.  It ends through line 13 and hands its caller nothing, exactly as the
call `CreateBlock(1, 1, 1)` does: no `InvalidExtent` is reported. -/
theorem create_zero_row_no_failure :
    endLine (CreateBlock 3 ⟨17, -3, 0, 99, 5, -128, 127, 1⟩ 0 1 1) = some (some 13)
    ∧ handed (CreateBlock 3 ⟨17, -3, 0, 99, 5, -128, 127, 1⟩ 0 1 1) = some none
    ∧ endLine (CreateBlock 3 ⟨17, -3, 0, 99, 5, -128, 127, 1⟩ 1 1 1) = some (some 13)
    ∧ handed (CreateBlock 3 ⟨17, -3, 0, 99, 5, -128, 127, 1⟩ 1 1 1) = some none :=
  ⟨by decide, by decide, by decide, by decide⟩

/-- C3, amended: for `row`, `cols`, `depth` with at least one of them `≤ 0`,
`CreateBlock` returns no index (it hands its caller nothing) and does not fail
with `InvalidExtent`: it validates nothing, and with fuel for three loop
conditions its call ends through line 13, which its caller cannot tell from
the call on any other extents. -/
theorem create_no_validation (s : CLocals) (row cols depth : Int)
    (_h : row ≤ 0 ∨ cols ≤ 0 ∨ depth ≤ 0) (fuel : Nat) (hf : 3 ≤ fuel) :
    handed (CreateBlock fuel s row cols depth) = some none
    ∧ endLine (CreateBlock fuel s row cols depth) = some (some 13)
    ∧ (∀ s2 row2 cols2 depth2,
        handed (CreateBlock fuel s row cols depth)
          = handed (CreateBlock fuel s2 row2 cols2 depth2)
        ∧ endLine (CreateBlock fuel s row cols depth)
          = endLine (CreateBlock fuel s2 row2 cols2 depth2)) := by
  refine ⟨CreateBlock_handed s row cols depth fuel hf,
    CreateBlock_endLine s row cols depth fuel hf, ?_⟩
  intro s2 row2 cols2 depth2
  rw [CreateBlock_handed s row cols depth fuel hf, CreateBlock_endLine s row cols depth fuel hf,
    CreateBlock_handed s2 row2 cols2 depth2 fuel hf,
    CreateBlock_endLine s2 row2 cols2 depth2 fuel hf]
  exact ⟨rfl, rfl⟩

/-- Witness of the amended C3 at `(0, 1, 1)`. -/
theorem create_no_validation_witness :
    handed (CreateBlock 3 ⟨17, -3, 0, 99, 5, -128, 127, 1⟩ 0 1 1) = some none
    ∧ endLine (CreateBlock 3 ⟨17, -3, 0, 99, 5, -128, 127, 1⟩ 0 1 1) = some (some 13)
    ∧ (∀ s2 row2 cols2 depth2,
        handed (CreateBlock 3 ⟨17, -3, 0, 99, 5, -128, 127, 1⟩ 0 1 1) = handed (CreateBlock 3 s2 row2 cols2 depth2)
        ∧ endLine (CreateBlock 3 ⟨17, -3, 0, 99, 5, -128, 127, 1⟩ 0 1 1)
          = endLine (CreateBlock 3 s2 row2 cols2 depth2)) :=
  create_no_validation ⟨17, -3, 0, 99, 5, -128, 127, 1⟩ 0 1 1 (Or.inl (le_refl _)) 3 (le_refl _)

/-- C4, as stated, fails on the arguments `(1, 1, 1)`: the call
`CreateBlock(1, 1, 1)` ends in `return row;` (line 13, operand `1`), a first
call `DestroyeBlock(1, 1, 1)` runs to its end, and a second call on the same
arguments, entered with the locals as the first call left them, runs to its
end in the same way: it does not fail. -/
theorem destroy_twice_same :
    CreateBlock 3 ⟨17, -3, 0, 99, 5, -128, 127, 1⟩ 1 1 1
      = some (.ret 13 1 ⟨0, 0, 0, 99, 5, -128, 127, 1⟩)
    ∧ DestroyeBlock 1 ⟨4096, 4100, 4104, 4108, 4112, 4116, 4120, 4124, 4128⟩
        ⟨1, 2, 3, 4, 5, 6, 7, 8, 9⟩ 1 1 1
      = some (.normal ⟨0, 2, 3, 12, 5, 6, 0, 8, 9⟩)
    ∧ DestroyeBlock 1 ⟨4096, 4100, 4104, 4108, 4112, 4116, 4120, 4124, 4128⟩
        ⟨0, 2, 3, 12, 5, 6, 0, 8, 9⟩ 1 1 1
      = some (.normal ⟨0, 2, 3, 12, 5, 6, 0, 8, 9⟩) :=
  ⟨by decide, by decide, by decide⟩

/-- C4, amended: `DestroyeBlock` keeps no occupancy and reports no error.  A
second call on the same arguments ends as the first does, whatever its locals
hold on entry (both run out of the same fuel, both run to the end, or both
return the same value at the same line), and a value it returns is `row`
(line 48) or `cols` (line 52). -/
theorem destroy_twice (fuel : Nat) (L : Lits) (s t : DLocals) (row cols depth : Int) :
    observe (DestroyeBlock fuel L s row cols depth)
      = observe (DestroyeBlock fuel L t row cols depth)
    ∧ (observe (DestroyeBlock fuel L t row cols depth) = none
      ∨ observe (DestroyeBlock fuel L t row cols depth) = some none
      ∨ observe (DestroyeBlock fuel L t row cols depth) = some (some (48, row))
      ∨ observe (DestroyeBlock fuel L t row cols depth) = some (some (52, cols))) := by
  refine ⟨DestroyeBlock_locals fuel L s t row cols depth, ?_⟩
  rcases h : DestroyeBlock fuel L t row cols depth with _ | c
  · exact Or.inl rfl
  · cases c with
    | normal u => exact Or.inr (Or.inl rfl)
    | brk u => exact Or.inr (Or.inl rfl)
    | cont u => exact Or.inr (Or.inl rfl)
    | ret l v u =>
      rcases DestroyeBlock_return fuel L t u row cols depth l v h with ⟨h1, h2⟩ | ⟨h1, h2⟩
      · subst h1; subst h2; exact Or.inr (Or.inr (Or.inl rfl))
      · subst h1; subst h2; exact Or.inr (Or.inr (Or.inr rfl))

/-- C5, as stated, fails at `(1, 1, 1)`, and at `(2, 5, 9)`: the call of
`CreateBlock` ends through line 13 and hands its caller nothing, so no value,
and no slot index, is returned. -/
theorem create_hands_no_index :
    handed (CreateBlock 3 ⟨17, -3, 0, 99, 5, -128, 127, 1⟩ 1 1 1) = some none
    ∧ endLine (CreateBlock 3 ⟨17, -3, 0, 99, 5, -128, 127, 1⟩ 1 1 1) = some (some 13)
    ∧ handed (CreateBlock 3 ⟨17, -3, 0, 99, 5, -128, 127, 1⟩ 2 5 9) = some none
    ∧ endLine (CreateBlock 3 ⟨17, -3, 0, 99, 5, -128, 127, 1⟩ 2 5 9) = some (some 13) :=
  ⟨by decide, by decide, by decide, by decide⟩

/-- C5, amended: for `row`, `cols`, `depth` all positive, `CreateBlock` hands
its caller no value, hence no slot index; what its caller sees is not derived
from the extents passed in: with fuel for three loop conditions the call ends
through line 13 and hands back nothing, on these extents as on any other
positive ones and whatever the locals hold on entry. -/
theorem create_hands_nothing (s s2 : CLocals) (row cols depth row2 cols2 depth2 : Int)
    (_hr : 0 < row) (_hc : 0 < cols) (_hd : 0 < depth) (_hr2 : 0 < row2)
    (_hc2 : 0 < cols2) (_hd2 : 0 < depth2) (fuel : Nat) (hf : 3 ≤ fuel) :
    handed (CreateBlock fuel s row cols depth) = some none
    ∧ endLine (CreateBlock fuel s row cols depth) = some (some 13)
    ∧ handed (CreateBlock fuel s row cols depth)
      = handed (CreateBlock fuel s2 row2 cols2 depth2)
    ∧ endLine (CreateBlock fuel s row cols depth)
      = endLine (CreateBlock fuel s2 row2 cols2 depth2) := by
  rw [CreateBlock_handed s row cols depth fuel hf, CreateBlock_endLine s row cols depth fuel hf,
    CreateBlock_handed s2 row2 cols2 depth2 fuel hf,
    CreateBlock_endLine s2 row2 cols2 depth2 fuel hf]
  exact ⟨rfl, rfl, rfl, rfl⟩

/-- Witness of the amended C5 at `(7, 1, 1)` and `(3, 2, 5)`. -/
theorem create_hands_nothing_witness :
    handed (CreateBlock 3 ⟨17, -3, 0, 99, 5, -128, 127, 1⟩ 7 1 1) = some none
    ∧ endLine (CreateBlock 3 ⟨17, -3, 0, 99, 5, -128, 127, 1⟩ 7 1 1) = some (some 13)
    ∧ handed (CreateBlock 3 ⟨17, -3, 0, 99, 5, -128, 127, 1⟩ 7 1 1)
      = handed (CreateBlock 3 ⟨1, 1, 1, 1, 1, 1, 1, 1⟩ 3 2 5)
    ∧ endLine (CreateBlock 3 ⟨17, -3, 0, 99, 5, -128, 127, 1⟩ 7 1 1)
      = endLine (CreateBlock 3 ⟨1, 1, 1, 1, 1, 1, 1, 1⟩ 3 2 5) :=
  create_hands_nothing ⟨17, -3, 0, 99, 5, -128, 127, 1⟩ ⟨1, 1, 1, 1, 1, 1, 1, 1⟩
    7 1 1 3 2 5 (by decide) (by decide) (by decide) (by decide) (by decide) (by decide)
    3 (le_refl _)

end Block

